import Mathlib

/-!
Verification of the Estimate Request Orchestrator
(shallow embedding of src/src/hooks/useEstimateFlow.ts).

The hook is a multi-stage intake wizard: state transitions are embedded as
pure functions over an explicit `FlowState` record; results of the external
gateways (lead insert/update/query, estimate-job invocation) are passed in
as explicit oracle parameters; user-visible notifications and network calls
are recorded in an effect log.  JavaScript truthiness on strings, options
and JSON values is modelled explicitly where the source branches on it.
-/

/-- JSON-like values (the `Json` type of the supabase layer). -/
inductive Json where
  | null : Json
  | bool : Bool → Json
  | num : Int → Json
  | str : String → Json
  | arr : List Json → Json
  | obj : List (String × Json) → Json

/-- JavaScript truthiness of a JSON value (`null`, `false`, `0`, `""` are falsy). -/
def jsonTruthy : Json → Bool
  | Json.null => false
  | Json.bool b => b
  | Json.num n => n != 0
  | Json.str s => s != ""
  | Json.arr _ => true
  | Json.obj _ => true

/-- Truthiness of a possibly-absent JSON value (`undefined` is falsy). -/
def jsTruthyOptJson : Option Json → Bool
  | some j => jsonTruthy j
  | none => false

/-- Truthiness of a possibly-absent string (`undefined`, `null` and `""` are falsy). -/
def optStrTruthy : Option String → Bool
  | some s => s != ""
  | none => false

/-- The JavaScript `a || b` on strings: `b` when `a` is falsy (empty). -/
def jsOrStr (a b : String) : String :=
  if a = "" then b else a

/-- The JavaScript `a || b` where `a` may be `undefined`. -/
def jsOrElse (a : Option String) (b : String) : String :=
  match a with
  | some s => if s = "" then b else s
  | none => b

/-- One stored answer entry: `{question, type, answers, options}`. -/
structure Answer where
  question : String
  type : String
  answers : List String
  options : List String
deriving DecidableEq, Repr

/-- The per-category mapping question id → answer entry (ordered entries). -/
abbrev CategoryAnswers := List (String × Answer)

/-- AnswersState: mapping category name → per-category answers (ordered entries). -/
abbrev AnswersState := List (String × CategoryAnswers)

/-- Entry lookup in an ordered string-keyed mapping (first matching key). -/
def alookup {α : Type} (l : List (String × α)) (k : String) : Option α :=
  (l.find? (fun p => p.1 == k)).map Prod.snd

/-- The object built for a single answer entry by `formatAnswersForJson`. -/
def formatAnswerEntry (answer : Answer) : Json :=
  Json.obj [("question", Json.str answer.question),
            ("type", Json.str answer.type),
            ("answers", Json.arr (answer.answers.map Json.str)),
            ("options", Json.arr (answer.options.map Json.str))]

/-- `formatAnswersForJson` from the hook: nested `Object.entries` reduce that
rebuilds the category → question-id → `{question, type, answers, options}`
structure as a JSON object. -/
def formatAnswersForJson (answers : AnswersState) : Json :=
  Json.obj (answers.map (fun p =>
    (p.1, Json.obj (p.2.map (fun q => (q.1, formatAnswerEntry q.2))))))

/-- Entries of a JSON object (empty for non-objects). -/
def objEntries : Json → List (String × Json)
  | Json.obj l => l
  | _ => []

/-- Keys of a JSON object. -/
def objKeys (j : Json) : List String :=
  (objEntries j).map Prod.fst

/-- Field access on a JSON object (first matching key). -/
def objGet (j : Json) (k : String) : Option Json :=
  ((objEntries j).find? (fun p => p.1 == k)).map Prod.snd

/-- Wizard stages of the estimate flow. -/
inductive EstimateStage where
  | photo | description | questions | contact | estimate | category | loading
deriving DecidableEq, Repr

/-- A catalog category (as read by the orchestrator). -/
structure Category where
  id : String
  name : String
  description : String
  icon : String
  keywords : List String
  questions : List String
deriving DecidableEq, Repr

/-- A consolidated matched question set: `{category, questions}`. -/
structure CategoryQuestions where
  category : String
  questions : List String
deriving DecidableEq, Repr

/-- The hook's session state (the `useState` cells of `useEstimateFlow`). -/
structure FlowState where
  stage : EstimateStage
  uploadedImageUrl : Option String
  uploadedPhotos : List String
  projectDescription : String
  currentLeadId : Option String
  selectedCategory : Option String
  completedCategories : List String
  matchedQuestionSets : List CategoryQuestions
  progress : Nat
  estimate : Option Json
  categories : List Category
  isLoading : Bool
  isGeneratingEstimate : Bool
  answers : AnswersState

/-- The initial state of the hook. -/
def initialFlowState : FlowState :=
  { stage := EstimateStage.photo
    uploadedImageUrl := none
    uploadedPhotos := []
    projectDescription := ""
    currentLeadId := none
    selectedCategory := none
    completedCategories := []
    matchedQuestionSets := []
    progress := 0
    estimate := none
    categories := []
    isLoading := true
    isGeneratingEstimate := false
    answers := [] }

/-- `handlePhotoUpload`: store the photo URLs, remember the first URL when the
list is non-empty, and advance to the description stage. -/
def handlePhotoUpload (s : FlowState) (urls : List String) : FlowState :=
  let s1 := { s with uploadedPhotos := urls }
  let s2 := if urls.length > 0 then { s1 with uploadedImageUrl := urls.head? } else s1
  { s2 with stage := EstimateStage.description }

/-- `handleDescriptionSubmit`: store the description; route to the category
stage when consolidation produced no sets, otherwise store the matched sets,
set the selected category from the first set when its category is truthy,
and advance to the questions stage.  The consolidated sets are the result of
the external matcher (`consolidateQuestionSets`), passed in as an oracle. -/
def handleDescriptionSubmit (s : FlowState) (description : String)
    (consolidatedSets : List CategoryQuestions) : FlowState :=
  let s1 := { s with projectDescription := description }
  if consolidatedSets.length = 0 then
    { s1 with stage := EstimateStage.category }
  else
    let s2 := match consolidatedSets.head? with
      | some cq => if cq.category ≠ "" then { s1 with selectedCategory := some cq.category } else s1
      | none => s1
    { s2 with matchedQuestionSets := consolidatedSets, stage := EstimateStage.questions }

/-- `handleCategorySelect`: set the selected category and go to questions. -/
def handleCategorySelect (s : FlowState) (categoryId : String) : FlowState :=
  { s with selectedCategory := some categoryId, stage := EstimateStage.questions }

/-- A caught JavaScript error value: whether it is an `Error` instance
(relevant for `error instanceof Error` checks) and its message. -/
structure JsError where
  isErrorInstance : Bool
  message : String
deriving DecidableEq, Repr

/-- The row selected by the poll query: `estimate_data, status, error_message`. -/
structure LeadStatusRow where
  estimate_data : Option Json
  status : String
  error_message : Option String

/-- Result of the poll query (`maybeSingle`): a gateway failure, no row for
the id, or the selected row. -/
inductive QueryResult where
  | failure : JsError → QueryResult
  | absent : QueryResult
  | row : LeadStatusRow → QueryResult

/-- A user-visible notification (the `toast` sink). -/
structure Toast where
  title : String
  description : String
  variant : String
deriving DecidableEq, Repr

/-- Toast fired when the poll loop reaches the timeout ceiling. -/
def timeoutToast : Toast :=
  { title := "Error"
    description := "Estimate generation timed out. Please try again."
    variant := "destructive" }

/-- Toast fired by the poll loop's catch clause: the caught message when the
error is an `Error` instance, generic text otherwise. -/
def pollErrorToast (e : JsError) : Toast :=
  { title := "Error"
    description :=
      if e.isErrorInstance then e.message
      else "Failed to generate estimate. Please try again."
    variant := "destructive" }

/-- Toast fired when starting estimate generation fails (also used by the
questions-complete catch clause). -/
def startFailToast : Toast :=
  { title := "Error"
    description := "Failed to start estimate generation. Please try again."
    variant := "destructive" }

/-- Toast fired by the contact-submission catch clause. -/
def contactFailToast : Toast :=
  { title := "Error"
    description := "Failed to process your information. Please try again."
    variant := "destructive" }

/-- Toast fired by the skip-path catch clause. -/
def skipFailToast : Toast :=
  { title := "Error"
    description := "Failed to process your request. Please try again."
    variant := "destructive" }

/-- Toast fired when the contractor id is missing on the questions path. -/
def contractorRequiredToast : Toast :=
  { title := "Error"
    description := "Contractor ID is required"
    variant := "destructive" }

/-- `checkEstimateStatus`: evaluate one poll query result against the state.
Returns the updated state together with `ok b` (whether generation is
complete) or `error e` (a thrown error, rethrown to the poll loop). -/
def checkEstimateStatus (s : FlowState) (q : QueryResult) :
    FlowState × Except JsError Bool :=
  match q with
  | QueryResult.failure e => (s, Except.error e)
  | QueryResult.absent => (s, Except.ok false)
  | QueryResult.row lead =>
    if lead.status = "error" then
      ({ s with isGeneratingEstimate := false },
       Except.error
         { isErrorInstance := true
           message := jsOrElse lead.error_message "Failed to generate estimate" })
    else if lead.status = "complete" ∧ jsTruthyOptJson lead.estimate_data = true then
      ({ s with estimate := lead.estimate_data
                isGeneratingEstimate := false
                stage := EstimateStage.estimate },
       Except.ok true)
    else
      (s, Except.ok false)

/-- Hard ceiling for the poll loop (milliseconds). -/
def ESTIMATE_TIMEOUT : Nat := 120000

/-- Poll interval (milliseconds). -/
def POLL_INTERVAL : Nat := 3000

/-- State of one running poll loop: the shared flow state, the elapsed-time
counter, whether the interval has been cleared, and the toasts fired. -/
structure PollState where
  flow : FlowState
  timeElapsed : Nat
  cleared : Bool
  toasts : List Toast

/-- The poll loop started with a fresh interval over flow state `f`. -/
def initPollState (f : FlowState) : PollState :=
  { flow := f, timeElapsed := 0, cleared := false, toasts := [] }

/-- One tick of the `setInterval` callback in `startEstimateGeneration`:
bump the elapsed time; on reaching the ceiling clear the interval, clear the
in-flight flag and fire the timeout toast; otherwise run
`checkEstimateStatus` on this tick's query result — completion clears the
interval, a thrown error clears the interval and the flag and fires the
catch-clause toast.  A tick on a cleared interval never runs. -/
def pollTick (ps : PollState) (q : QueryResult) : PollState :=
  if ps.cleared = true then ps
  else
    let t := ps.timeElapsed + POLL_INTERVAL
    if ESTIMATE_TIMEOUT ≤ t then
      { ps with timeElapsed := t
                cleared := true
                flow := { ps.flow with isGeneratingEstimate := false }
                toasts := ps.toasts ++ [timeoutToast] }
    else
      match checkEstimateStatus ps.flow q with
      | (f, Except.ok true) => { ps with timeElapsed := t, flow := f, cleared := true }
      | (f, Except.ok false) => { ps with timeElapsed := t, flow := f }
      | (f, Except.error e) =>
        { ps with timeElapsed := t
                  cleared := true
                  flow := { f with isGeneratingEstimate := false }
                  toasts := ps.toasts ++ [pollErrorToast e] }

/-- Iterated poll ticks fed by a stream of query results: tick `n + 1` uses
`results n` for its query. -/
def pollIterS (results : Nat → QueryResult) : Nat → PollState → PollState
  | 0, ps => ps
  | n + 1, ps => pollTick (pollIterS results n ps) (results n)

/-- A query result on which `checkEstimateStatus` reports "not yet ready"
and leaves the state untouched (no terminal lead status observed). -/
def NonTerminalResult (q : QueryResult) : Prop :=
  ∀ f : FlowState, checkEstimateStatus f q = (f, Except.ok false)

/-- The orchestrator's configuration: the contractor id (possibly missing). -/
structure EstimateConfig where
  contractorId : Option String
deriving DecidableEq, Repr

/-- Truthiness of `config.contractorId` (the `!config.contractorId` guards). -/
def hasContractorId (cfg : EstimateConfig) : Bool :=
  optStrTruthy cfg.contractorId

/-- The contractor id string actually written into lead rows. -/
def contractorIdStr (cfg : EstimateConfig) : String :=
  cfg.contractorId.getD ""

/-- The row passed to a lead insert. -/
structure LeadInsert where
  project_description : String
  project_title : String
  answers : Json
  category : Option String
  status : String
  contractor_id : String
  project_images : List String
  user_name : Option String
  user_email : Option String
  user_phone : Option String
  project_address : Option String
  is_test_estimate : Bool

/-- The body sent to the `generate-estimate` function invocation. -/
structure InvokePayload where
  leadId : String
  contractorId : Option String
  projectDescription : String
  category : Option String
  imageUrl : Option String
  projectImages : List String

/-- Contact-form data submitted on the contact stage. -/
structure ContactFields where
  fullName : String
  email : String
  phone : String
  address : String
deriving DecidableEq, Repr

/-- Observable effects of one orchestrator operation, in order: toasts shown,
lead-insert attempts (with the row data), successful inserts (with the id the
gateway assigned), lead-update attempts, and job invocations. -/
inductive Effect where
  | toast : Toast → Effect
  | insertAttempt : LeadInsert → Effect
  | insertSuccess : String → Effect
  | updateAttempt : String → ContactFields → Effect
  | invokeJob : InvokePayload → Effect

/-- Result of one orchestrator operation: the new flow state plus effects. -/
structure StepResult where
  flow : FlowState
  effects : List Effect

/-- Result of a lead insert: a gateway failure, or success returning the
inserted row's id (`none` models a row coming back without an id). -/
inductive InsertResult where
  | failure : JsError → InsertResult
  | success : Option String → InsertResult

/-- A well-behaved insert oracle: per the gateway contract, a successful
insert returns the id the gateway assigned (a non-empty string). -/
def WFInsert : InsertResult → Prop
  | InsertResult.failure _ => True
  | InsertResult.success idOpt => optStrTruthy idOpt = true

/-- The invocation body built by `startEstimateGeneration`. -/
def mkInvokePayload (cfg : EstimateConfig) (s : FlowState) (leadId : String) :
    InvokePayload :=
  { leadId := leadId
    contractorId := cfg.contractorId
    projectDescription := s.projectDescription
    category := s.selectedCategory
    imageUrl := s.uploadedImageUrl
    projectImages := s.uploadedPhotos }

/-- `startEstimateGeneration`: set the in-flight flag, invoke the job; on an
invocation failure the catch clause clears the flag and fires a toast (so no
polling starts); on success the flag stays set and the poll loop follows.
`invokeError` is the job-gateway oracle for this call. -/
def startEstimateGeneration (cfg : EstimateConfig) (s : FlowState) (leadId : String)
    (invokeError : Option JsError) : StepResult :=
  let s1 := { s with isGeneratingEstimate := true }
  match invokeError with
  | some _ =>
    { flow := { s1 with isGeneratingEstimate := false }
      effects := [Effect.invokeJob (mkInvokePayload cfg s leadId),
                  Effect.toast startFailToast] }
  | none =>
    { flow := s1
      effects := [Effect.invokeJob (mkInvokePayload cfg s leadId)] }

/-- `matchedQuestionSets[0]?.category` (`none` models `undefined`). -/
def currentCategoryOf (s : FlowState) : Option String :=
  s.matchedQuestionSets.head?.map (fun cq => cq.category)

/-- `answers[currentCategory]?.Q1?.answers[0]` (`none` models `undefined`). -/
def firstAnswerOf (ans : AnswersState) (currentCategory : Option String) :
    Option String :=
  match currentCategory with
  | none => none
  | some c =>
    match alookup ans c with
    | none => none
    | some ca =>
      match alookup ca "Q1" with
      | none => none
      | some a => a.answers.head?

/-- The lead row built by `handleQuestionComplete`. -/
def questionsLeadData (cfg : EstimateConfig) (s : FlowState) (ans : AnswersState) :
    LeadInsert :=
  let currentCategory := currentCategoryOf s
  { project_description :=
      jsOrElse (firstAnswerOf ans currentCategory) (jsOrStr s.projectDescription "New project")
    project_title := (jsOrElse currentCategory "New") ++ " Project"
    answers := formatAnswersForJson ans
    category := currentCategory
    status := "pending"
    contractor_id := contractorIdStr cfg
    project_images := s.uploadedPhotos
    user_name := none
    user_email := none
    user_phone := none
    project_address := none
    is_test_estimate := false }

/-- `handleQuestionComplete`: guard on the contractor id; store the answers;
go to loading; insert the lead; on success store the lead id, set the
in-flight flag, go to contact and start generation; on any failure the catch
clause fires a toast and reverts the stage to questions. -/
def handleQuestionComplete (cfg : EstimateConfig) (s : FlowState) (ans : AnswersState)
    (insertRes : InsertResult) (invokeError : Option JsError) : StepResult :=
  if hasContractorId cfg = false then
    { flow := s, effects := [Effect.toast contractorRequiredToast] }
  else
    let s1 := { s with answers := ans, stage := EstimateStage.loading }
    let leadData := questionsLeadData cfg s ans
    match insertRes with
    | InsertResult.failure _ =>
      { flow := { s1 with stage := EstimateStage.questions }
        effects := [Effect.insertAttempt leadData, Effect.toast startFailToast] }
    | InsertResult.success idOpt =>
      if optStrTruthy idOpt = true then
        let id := idOpt.getD ""
        let s2 := { s1 with currentLeadId := some id
                            isGeneratingEstimate := true
                            stage := EstimateStage.contact }
        let g := startEstimateGeneration cfg s2 id invokeError
        { flow := g.flow
          effects := [Effect.insertAttempt leadData, Effect.insertSuccess id] ++ g.effects }
      else
        { flow := { s1 with stage := EstimateStage.questions }
          effects := [Effect.insertAttempt leadData, Effect.toast startFailToast] }

/-- The lead row built by the insert branch of `handleContactSubmit`. -/
def contactLeadData (cfg : EstimateConfig) (s : FlowState) (contactData : ContactFields) :
    LeadInsert :=
  let currentCategory := currentCategoryOf s
  { project_description :=
      jsOrElse (firstAnswerOf s.answers currentCategory) (jsOrStr s.projectDescription "New project")
    project_title := (jsOrElse currentCategory "New") ++ " Project"
    answers := formatAnswersForJson s.answers
    category := currentCategory
    status := "pending"
    contractor_id := contractorIdStr cfg
    project_images := s.uploadedPhotos
    user_name := some contactData.fullName
    user_email := some contactData.email
    user_phone := some contactData.phone
    project_address := some contactData.address
    is_test_estimate := false }

/-- `handleContactSubmit`: with a held lead id, update the existing row's
contact fields and start generation only when not already in flight; with no
held id, insert a new lead with the contact fields and start generation; the
missing-contractor guard throws into the catch clause, which fires a toast
and clears the in-flight flag (as does any insert/update failure). -/
def handleContactSubmit (cfg : EstimateConfig) (s : FlowState) (contactData : ContactFields)
    (updateRes : Option JsError) (insertRes : InsertResult)
    (invokeError : Option JsError) : StepResult :=
  if hasContractorId cfg = false then
    { flow := { s with isGeneratingEstimate := false }
      effects := [Effect.toast contactFailToast] }
  else
    if optStrTruthy s.currentLeadId = true then
      let leadId := s.currentLeadId.getD ""
      match updateRes with
      | some _ =>
        { flow := { s with isGeneratingEstimate := false }
          effects := [Effect.updateAttempt leadId contactData, Effect.toast contactFailToast] }
      | none =>
        if s.isGeneratingEstimate = false then
          let g := startEstimateGeneration cfg s leadId invokeError
          { flow := g.flow
            effects := Effect.updateAttempt leadId contactData :: g.effects }
        else
          { flow := s, effects := [Effect.updateAttempt leadId contactData] }
    else
      let leadData := contactLeadData cfg s contactData
      match insertRes with
      | InsertResult.failure _ =>
        { flow := { s with isGeneratingEstimate := false }
          effects := [Effect.insertAttempt leadData, Effect.toast contactFailToast] }
      | InsertResult.success idOpt =>
        if optStrTruthy idOpt = true then
          let id := idOpt.getD ""
          let s1 := { s with currentLeadId := some id }
          let g := startEstimateGeneration cfg s1 id invokeError
          { flow := g.flow
            effects := [Effect.insertAttempt leadData, Effect.insertSuccess id] ++ g.effects }
        else
          { flow := { s with isGeneratingEstimate := false }
            effects := [Effect.insertAttempt leadData, Effect.toast contactFailToast] }

/-- The lead row built by `handleSkip`. -/
def skipLeadData (cfg : EstimateConfig) (s : FlowState) : LeadInsert :=
  { project_description := jsOrStr s.projectDescription "Test project"
    project_title := "Test Project"
    answers := formatAnswersForJson s.answers
    category := s.selectedCategory
    status := "pending"
    contractor_id := contractorIdStr cfg
    project_images := s.uploadedPhotos
    user_name := none
    user_email := none
    user_phone := none
    project_address := none
    is_test_estimate := true }

/-- `handleSkip`: the missing-contractor guard returns silently (no toast);
otherwise set the in-flight flag, insert a test lead; on success store the
lead id, start generation and advance to the estimate stage; on failure the
catch clause fires a toast and clears the flag, stage unchanged. -/
def handleSkip (cfg : EstimateConfig) (s : FlowState)
    (insertRes : InsertResult) (invokeError : Option JsError) : StepResult :=
  if hasContractorId cfg = false then
    { flow := s, effects := [] }
  else
    let s1 := { s with isGeneratingEstimate := true }
    let leadData := skipLeadData cfg s
    match insertRes with
    | InsertResult.failure _ =>
      { flow := { s1 with isGeneratingEstimate := false }
        effects := [Effect.insertAttempt leadData, Effect.toast skipFailToast] }
    | InsertResult.success idOpt =>
      if optStrTruthy idOpt = true then
        let id := idOpt.getD ""
        let s2 := { s1 with currentLeadId := some id }
        let g := startEstimateGeneration cfg s2 id invokeError
        { flow := { g.flow with stage := EstimateStage.estimate }
          effects := [Effect.insertAttempt leadData, Effect.insertSuccess id] ++ g.effects }
      else
        { flow := { s1 with isGeneratingEstimate := false }
          effects := [Effect.insertAttempt leadData, Effect.toast skipFailToast] }

/-- Arguments (including gateway oracles) of one `handleQuestionComplete` call. -/
structure CompleteQArgs where
  ans : AnswersState
  insertRes : InsertResult
  invokeError : Option JsError

/-- Arguments (including gateway oracles) of one `handleContactSubmit` call. -/
structure SubmitCArgs where
  contactData : ContactFields
  updateRes : Option JsError
  insertRes : InsertResult
  invokeError : Option JsError

/-- One public trigger fired during a wizard session. -/
inductive SessionCall where
  | completeQ : CompleteQArgs → SessionCall
  | submitC : SubmitCArgs → SessionCall

/-- Dispatch one session call to its handler. -/
def runCall (cfg : EstimateConfig) (s : FlowState) : SessionCall → StepResult
  | SessionCall.completeQ a => handleQuestionComplete cfg s a.ans a.insertRes a.invokeError
  | SessionCall.submitC a =>
    handleContactSubmit cfg s a.contactData a.updateRes a.insertRes a.invokeError

/-- Run a sequence of session calls, threading the flow state and
concatenating the effect logs. -/
def runSession (cfg : EstimateConfig) : FlowState → List SessionCall → FlowState × List Effect
  | s, [] => (s, [])
  | s, c :: cs =>
    let r := runCall cfg s c
    let rest := runSession cfg r.flow cs
    (rest.1, r.effects ++ rest.2)

/-- Whether an effect is a successful lead insert (a lead row created). -/
def isInsertSuccessE : Effect → Bool
  | Effect.insertSuccess _ => true
  | _ => false

/-- Whether an effect is a lead-insert attempt. -/
def isInsertAttemptE : Effect → Bool
  | Effect.insertAttempt _ => true
  | _ => false

/-- Whether an effect is a toast (a user-visible notification). -/
def isToastE : Effect → Bool
  | Effect.toast _ => true
  | _ => false

/-- Number of leads created (successful inserts) in an effect log. -/
def leadsCreated (l : List Effect) : Nat :=
  (l.filter isInsertSuccessE).length

/-- Number of lead-insert attempts in an effect log. -/
def insertAttempts (l : List Effect) : Nat :=
  (l.filter isInsertAttemptE).length

/-- Whether the session currently holds a (truthy) lead id. -/
def leadIdHeld (s : FlowState) : Bool :=
  optStrTruthy s.currentLeadId

lemma leadsCreated_append (a b : List Effect) :
    leadsCreated (a ++ b) = leadsCreated a + leadsCreated b := by
  simp [leadsCreated, List.filter_append]

lemma insertAttempts_append (a b : List Effect) :
    insertAttempts (a ++ b) = insertAttempts a + insertAttempts b := by
  simp [insertAttempts, List.filter_append]

lemma optStrTruthy_getD (o : Option String) (h : optStrTruthy o = true) :
    optStrTruthy (some (o.getD "")) = true := by
  cases o with
  | none => simp [optStrTruthy] at h
  | some x => simpa [optStrTruthy] using h

lemma pollTick_nonterminal (ps : PollState) (q : QueryResult) (hq : NonTerminalResult q)
    (hc : ps.cleared = false) (ht : ps.timeElapsed + POLL_INTERVAL < ESTIMATE_TIMEOUT) :
    pollTick ps q = { ps with timeElapsed := ps.timeElapsed + POLL_INTERVAL } := by
  unfold pollTick
  rw [hc]
  simp only [Bool.false_eq_true, if_false, if_neg (Nat.not_le.mpr ht), hq ps.flow]

lemma pollTick_timeout (ps : PollState) (q : QueryResult) (hc : ps.cleared = false)
    (ht : ESTIMATE_TIMEOUT ≤ ps.timeElapsed + POLL_INTERVAL) :
    pollTick ps q =
      { ps with timeElapsed := ps.timeElapsed + POLL_INTERVAL
                cleared := true
                flow := { ps.flow with isGeneratingEstimate := false }
                toasts := ps.toasts ++ [timeoutToast] } := by
  unfold pollTick
  rw [hc]
  simp only [Bool.false_eq_true, if_false, if_pos ht]

lemma pollTick_cleared (ps : PollState) (q : QueryResult) (hc : ps.cleared = true) :
    pollTick ps q = ps := by
  unfold pollTick
  rw [hc]
  simp

lemma pollIterS_nonterminal (results : Nat → QueryResult)
    (h : ∀ i, NonTerminalResult (results i)) (f : FlowState) :
    ∀ n, n ≤ 39 → pollIterS results n (initPollState f) =
      { initPollState f with timeElapsed := POLL_INTERVAL * n } := by
  intro n
  induction n with
  | zero => intro _; rfl
  | succ k ih =>
    intro hk
    have hk39 : k ≤ 39 := Nat.le_of_succ_le hk
    have hstep : pollIterS results (k + 1) (initPollState f) =
        pollTick (pollIterS results k (initPollState f)) (results k) := rfl
    rw [hstep, ih hk39, pollTick_nonterminal _ _ (h k) rfl ?bound]
    case bound =>
      show POLL_INTERVAL * k + POLL_INTERVAL < ESTIMATE_TIMEOUT
      simp only [POLL_INTERVAL, ESTIMATE_TIMEOUT]
      omega
    show ({ initPollState f with timeElapsed := POLL_INTERVAL * k + POLL_INTERVAL } : PollState) = _
    have : POLL_INTERVAL * k + POLL_INTERVAL = POLL_INTERVAL * (k + 1) := by ring
    rw [this]

lemma submitC_held (cfg : EstimateConfig) (s : FlowState) (a : SubmitCArgs)
    (hheld : optStrTruthy s.currentLeadId = true) :
    leadsCreated (runCall cfg s (SessionCall.submitC a)).effects = 0 ∧
    insertAttempts (runCall cfg s (SessionCall.submitC a)).effects = 0 ∧
    (runCall cfg s (SessionCall.submitC a)).flow.currentLeadId = s.currentLeadId := by
  cases hc : hasContractorId cfg <;>
    cases ur : a.updateRes <;>
      cases hg : s.isGeneratingEstimate <;>
        cases ie : a.invokeError <;>
          simp [runCall, handleContactSubmit, startEstimateGeneration, leadsCreated,
                insertAttempts, isInsertSuccessE, isInsertAttemptE, hheld, hc, ur, hg, ie]

lemma submitC_unheld (cfg : EstimateConfig) (s : FlowState) (a : SubmitCArgs)
    (hheld : optStrTruthy s.currentLeadId = false) (hwf : WFInsert a.insertRes) :
    (leadsCreated (runCall cfg s (SessionCall.submitC a)).effects = 0 ∧
      (runCall cfg s (SessionCall.submitC a)).flow.currentLeadId = s.currentLeadId) ∨
    (leadsCreated (runCall cfg s (SessionCall.submitC a)).effects = 1 ∧
      optStrTruthy (runCall cfg s (SessionCall.submitC a)).flow.currentLeadId = true) := by
  cases hc : hasContractorId cfg
  · left
    simp [runCall, handleContactSubmit, hc, leadsCreated, isInsertSuccessE]
  · cases ir : a.insertRes with
    | failure e =>
      left
      simp [runCall, handleContactSubmit, hc, hheld, ir, leadsCreated, isInsertSuccessE]
    | success idOpt =>
      right
      have hid : optStrTruthy idOpt = true := by rw [ir] at hwf; exact hwf
      cases ie : a.invokeError <;>
        simp [runCall, handleContactSubmit, startEstimateGeneration, hc, hheld, ir, hid,
              ie, leadsCreated, isInsertSuccessE, optStrTruthy_getD idOpt hid]

lemma completeQ_unheld (cfg : EstimateConfig) (s : FlowState) (a : CompleteQArgs)
    (hwf : WFInsert a.insertRes) :
    (leadsCreated (runCall cfg s (SessionCall.completeQ a)).effects = 0 ∧
      (runCall cfg s (SessionCall.completeQ a)).flow.currentLeadId = s.currentLeadId) ∨
    (leadsCreated (runCall cfg s (SessionCall.completeQ a)).effects = 1 ∧
      optStrTruthy (runCall cfg s (SessionCall.completeQ a)).flow.currentLeadId = true) := by
  cases hc : hasContractorId cfg
  · left
    simp [runCall, handleQuestionComplete, hc, leadsCreated, isInsertSuccessE]
  · cases ir : a.insertRes with
    | failure e =>
      left
      simp [runCall, handleQuestionComplete, hc, ir, leadsCreated, isInsertSuccessE]
    | success idOpt =>
      right
      have hid : optStrTruthy idOpt = true := by rw [ir] at hwf; exact hwf
      cases ie : a.invokeError <;>
        simp [runCall, handleQuestionComplete, startEstimateGeneration, hc, ir, hid,
              ie, leadsCreated, isInsertSuccessE, optStrTruthy_getD idOpt hid]

lemma runSession_submits_bound (cfg : EstimateConfig) :
    ∀ (subs : List SubmitCArgs), (∀ x ∈ subs, WFInsert x.insertRes) →
    ∀ s : FlowState,
      (optStrTruthy s.currentLeadId = true →
        leadsCreated (runSession cfg s (subs.map SessionCall.submitC)).2 = 0) ∧
      (optStrTruthy s.currentLeadId = false →
        leadsCreated (runSession cfg s (subs.map SessionCall.submitC)).2 ≤ 1) := by
  intro subs
  induction subs with
  | nil =>
    intro _ s
    constructor <;> intro _ <;> simp [runSession, leadsCreated]
  | cons a rest ih =>
    intro hwf s
    have hwfa : WFInsert a.insertRes := hwf a (List.mem_cons_self a rest)
    have hwfr : ∀ x ∈ rest, WFInsert x.insertRes := fun x hx => hwf x (List.mem_cons_of_mem a hx)
    have hrun : (runSession cfg s ((a :: rest).map SessionCall.submitC)).2 =
        (runCall cfg s (SessionCall.submitC a)).effects ++
          (runSession cfg (runCall cfg s (SessionCall.submitC a)).flow
            (rest.map SessionCall.submitC)).2 := rfl
    constructor
    · intro hheld
      obtain ⟨h0, _, hid⟩ := submitC_held cfg s a hheld
      rw [hrun, leadsCreated_append, h0]
      have hheld2 : optStrTruthy (runCall cfg s (SessionCall.submitC a)).flow.currentLeadId = true := by
        rw [hid]; exact hheld
      have hr := (ih hwfr (runCall cfg s (SessionCall.submitC a)).flow).1 hheld2
      omega
    · intro hfalse
      rcases submitC_unheld cfg s a hfalse hwfa with ⟨h0, hid⟩ | ⟨h1, hheld2⟩
      · rw [hrun, leadsCreated_append, h0]
        have hf2 : optStrTruthy (runCall cfg s (SessionCall.submitC a)).flow.currentLeadId = false := by
          rw [hid]; exact hfalse
        have hr := (ih hwfr (runCall cfg s (SessionCall.submitC a)).flow).2 hf2
        omega
      · rw [hrun, leadsCreated_append, h1]
        have hr := (ih hwfr (runCall cfg s (SessionCall.submitC a)).flow).1 hheld2
        omega

lemma formatCategory_fields (ca : CategoryAnswers) :
    List.Forall₂ (fun (pa : String × Answer) (qa : String × Json) =>
        qa.1 = pa.1 ∧
        objGet qa.2 "question" = some (Json.str pa.2.question) ∧
        objGet qa.2 "type" = some (Json.str pa.2.type) ∧
        objGet qa.2 "answers" = some (Json.arr (pa.2.answers.map Json.str)) ∧
        objGet qa.2 "options" = some (Json.arr (pa.2.options.map Json.str)))
      ca (ca.map (fun q => (q.1, formatAnswerEntry q.2))) := by
  induction ca with
  | nil => exact List.Forall₂.nil
  | cons hd tl ih => exact List.Forall₂.cons ⟨rfl, rfl, rfl, rfl, rfl⟩ ih

/-- Claim C8: `formatAnswersForJson` maps the empty mapping to the empty
object, preserves exactly the category keys and (entrywise) the question-id
keys of its input, and sends each answer entry to an object whose
`question`, `type`, `answers` and `options` fields equal the input's.
(Totality and absence of input mutation hold by construction in this pure
embedding, mirroring the source, which only reads its argument.) -/
theorem claim_C8 :
    formatAnswersForJson [] = Json.obj [] ∧
    (∀ a : AnswersState, objKeys (formatAnswersForJson a) = a.map Prod.fst) ∧
    (∀ a : AnswersState,
      List.Forall₂ (fun (p : String × CategoryAnswers) (q : String × Json) =>
          q.1 = p.1 ∧ objKeys q.2 = p.2.map Prod.fst ∧
          List.Forall₂ (fun (pa : String × Answer) (qa : String × Json) =>
              qa.1 = pa.1 ∧
              objGet qa.2 "question" = some (Json.str pa.2.question) ∧
              objGet qa.2 "type" = some (Json.str pa.2.type) ∧
              objGet qa.2 "answers" = some (Json.arr (pa.2.answers.map Json.str)) ∧
              objGet qa.2 "options" = some (Json.arr (pa.2.options.map Json.str)))
            p.2 (objEntries q.2))
        a (objEntries (formatAnswersForJson a))) := by
  refine ⟨rfl, ?_, ?_⟩
  · intro a
    simp only [objKeys, objEntries, formatAnswersForJson, List.map_map]
    rfl
  · intro a
    induction a with
    | nil => exact List.Forall₂.nil
    | cons hd tl ih =>
      refine List.Forall₂.cons ⟨rfl, ?_, ?_⟩ ih
      · simp only [objKeys, objEntries, List.map_map]
        rfl
      · exact formatCategory_fields hd.2

/-- Claim C10: `handlePhotoUpload` always sets the stage to `description`
(also on an empty URL list), stores the list as the uploaded photos, sets
`uploadedImageUrl` to the first URL exactly when the list is non-empty and
leaves it unchanged otherwise. -/
theorem claim_C10 (s : FlowState) (urls : List String) :
    (handlePhotoUpload s urls).stage = EstimateStage.description ∧
    (handlePhotoUpload s urls).uploadedPhotos = urls ∧
    (urls ≠ [] → (handlePhotoUpload s urls).uploadedImageUrl = urls.head?) ∧
    (urls = [] → (handlePhotoUpload s urls).uploadedImageUrl = s.uploadedImageUrl) := by
  cases urls with
  | nil => simp [handlePhotoUpload]
  | cons h t => simp [handlePhotoUpload]

theorem claim_C10_witness :
    (handlePhotoUpload initialFlowState ["u1", "u2"]).uploadedImageUrl = some "u1" ∧
    (handlePhotoUpload initialFlowState []).uploadedImageUrl = none ∧
    (handlePhotoUpload initialFlowState []).stage = EstimateStage.description := by
  refine ⟨?_, ?_, (claim_C10 initialFlowState []).1⟩
  · exact (claim_C10 initialFlowState ["u1", "u2"]).2.2.1 (by decide)
  · exact (claim_C10 initialFlowState []).2.2.2 rfl

/-- Counterexample to claim C7 as stated: with at least one consolidated set
whose (first) category is the empty string, the stage does become
`questions` but the selected category is NOT set from the first set (the
source guards the assignment with `consolidatedSets[0]?.category`
truthiness), so it stays `none` rather than becoming `some ""`. -/
theorem claim_C7_cex :
    (handleDescriptionSubmit initialFlowState "remodel"
        [{ category := "", questions := [] }]).stage = EstimateStage.questions ∧
    (handleDescriptionSubmit initialFlowState "remodel"
        [{ category := "", questions := [] }]).selectedCategory = none := by
  exact ⟨rfl, rfl⟩

/-- Claim C7 (amended): on a description submission, zero consolidated sets
route to the `category` stage (never `questions`); with at least one set the
matched sets are stored, the stage becomes `questions`, and the selected
category is set from the first set whenever that set's category is
non-empty, and is left unchanged when it is empty. -/
theorem claim_C7 (s : FlowState) (d : String) (sets : List CategoryQuestions) :
    (sets = [] → handleDescriptionSubmit s d sets =
      { s with projectDescription := d, stage := EstimateStage.category }) ∧
    (∀ cq rest, sets = cq :: rest →
      (handleDescriptionSubmit s d sets).stage = EstimateStage.questions ∧
      (handleDescriptionSubmit s d sets).matchedQuestionSets = sets ∧
      (cq.category ≠ "" →
        (handleDescriptionSubmit s d sets).selectedCategory = some cq.category) ∧
      (cq.category = "" →
        (handleDescriptionSubmit s d sets).selectedCategory = s.selectedCategory)) := by
  constructor
  · intro h
    subst h
    rfl
  · intro cq rest h
    subst h
    by_cases hc : cq.category = "" <;>
      simp [handleDescriptionSubmit, hc]

theorem claim_C7_witness :
    handleDescriptionSubmit initialFlowState "leaky roof" [] =
      { initialFlowState with projectDescription := "leaky roof"
                              stage := EstimateStage.category } ∧
    (handleDescriptionSubmit initialFlowState "leaky roof"
        [{ category := "roofing", questions := ["Q1"] }]).selectedCategory = some "roofing" ∧
    (handleDescriptionSubmit initialFlowState "leaky roof"
        [{ category := "roofing", questions := ["Q1"] }]).stage = EstimateStage.questions := by
  refine ⟨(claim_C7 initialFlowState "leaky roof" []).1 rfl, ?_, ?_⟩
  · exact (((claim_C7 initialFlowState "leaky roof" _).2 _ [] rfl).2.2.1 (by decide))
  · exact ((claim_C7 initialFlowState "leaky roof" _).2 _ [] rfl).1

/-- Claim C3: when no poll tick ever observes a terminal lead status, the
poll loop with interval 3000ms and ceiling 120000ms fires the timeout on
exactly its 40th tick: through 39 ticks the interval is still live, no
notification has fired and the flow state is untouched; the 40th tick
clears the interval, fires the timeout toast and clears
`isGeneratingEstimate`. -/
theorem claim_C3 (results : Nat → QueryResult)
    (h : ∀ i, NonTerminalResult (results i)) (f : FlowState) :
    (∀ n, n ≤ 39 →
      (pollIterS results n (initPollState f)).cleared = false ∧
      (pollIterS results n (initPollState f)).toasts = [] ∧
      (pollIterS results n (initPollState f)).flow = f) ∧
    (pollIterS results 40 (initPollState f)).cleared = true ∧
    (pollIterS results 40 (initPollState f)).toasts = [timeoutToast] ∧
    (pollIterS results 40 (initPollState f)).flow =
      { f with isGeneratingEstimate := false } := by
  have key := pollIterS_nonterminal results h f
  have h39 := key 39 (by omega)
  have h40 : pollIterS results 40 (initPollState f) =
      pollTick (pollIterS results 39 (initPollState f)) (results 39) := rfl
  have hto := pollTick_timeout (pollIterS results 39 (initPollState f)) (results 39)
    (by rw [h39]; rfl)
    (by rw [h39]; show ESTIMATE_TIMEOUT ≤ POLL_INTERVAL * 39 + POLL_INTERVAL; decide)
  refine ⟨?_, ?_, ?_, ?_⟩
  · intro n hn
    rw [key n hn]
    exact ⟨rfl, rfl, rfl⟩
  · rw [h40, hto]
  · rw [h40, hto, h39]
    rfl
  · rw [h40, hto, h39]
    rfl

theorem claim_C3_witness :
    (pollIterS (fun _ => QueryResult.absent) 39
      (initPollState initialFlowState)).cleared = false ∧
    (pollIterS (fun _ => QueryResult.absent) 39
      (initPollState initialFlowState)).toasts = [] ∧
    (pollIterS (fun _ => QueryResult.absent) 40
      (initPollState initialFlowState)).cleared = true ∧
    (pollIterS (fun _ => QueryResult.absent) 40
      (initPollState initialFlowState)).toasts = [timeoutToast] ∧
    (pollIterS (fun _ => QueryResult.absent) 40
      (initPollState initialFlowState)).flow.isGeneratingEstimate = false := by
  have h := claim_C3 (fun _ => QueryResult.absent) (fun _ f => rfl) initialFlowState
  have h39 := h.1 39 (by omega)
  refine ⟨h39.1, h39.2.1, h.2.1, h.2.2.1, ?_⟩
  rw [h.2.2.2]

/-- Claim C6: during polling, a query returning no row leaves the tick
without action (state untouched apart from the elapsed-time counter) and
polling continues; a query failure on a tick stops the loop at once (the
interval is cleared, and a tick on a cleared interval does nothing, so
there is no retry), clears `isGeneratingEstimate` and fires a failure toast
whose text is the caught error's message whenever the error is an `Error`
instance (as the backend errors are), generic text otherwise. -/
theorem claim_C6 :
    (∀ ps : PollState, ps.cleared = false →
      ps.timeElapsed + POLL_INTERVAL < ESTIMATE_TIMEOUT →
      pollTick ps QueryResult.absent =
        { ps with timeElapsed := ps.timeElapsed + POLL_INTERVAL }) ∧
    (∀ (ps : PollState) (e : JsError), ps.cleared = false →
      ps.timeElapsed + POLL_INTERVAL < ESTIMATE_TIMEOUT →
      pollTick ps (QueryResult.failure e) =
        { ps with timeElapsed := ps.timeElapsed + POLL_INTERVAL
                  cleared := true
                  flow := { ps.flow with isGeneratingEstimate := false }
                  toasts := ps.toasts ++ [pollErrorToast e] }) ∧
    (∀ e : JsError, e.isErrorInstance = true →
      (pollErrorToast e).description = e.message) ∧
    (∀ (ps : PollState) (q : QueryResult), ps.cleared = true → pollTick ps q = ps) := by
  refine ⟨?_, ?_, ?_, pollTick_cleared⟩
  · intro ps hc ht
    exact pollTick_nonterminal ps QueryResult.absent (fun f => rfl) hc ht
  · intro ps e hc ht
    unfold pollTick
    rw [hc]
    simp only [Bool.false_eq_true, if_false, if_neg (Nat.not_le.mpr ht)]
    rfl
  · intro e he
    simp [pollErrorToast, he]

theorem claim_C6_witness :
    (pollTick (initPollState initialFlowState)
        (QueryResult.failure { isErrorInstance := true, message := "db down" })).toasts =
      [pollErrorToast { isErrorInstance := true, message := "db down" }] ∧
    (pollTick (initPollState initialFlowState)
        (QueryResult.failure { isErrorInstance := true, message := "db down" })).cleared = true ∧
    (pollErrorToast { isErrorInstance := true, message := "db down" }).description = "db down" ∧
    pollTick (initPollState initialFlowState) QueryResult.absent =
      { initPollState initialFlowState with timeElapsed := 3000 } := by
  have h := claim_C6
  have hf := h.2.1 (initPollState initialFlowState)
      { isErrorInstance := true, message := "db down" } rfl (by decide)
  refine ⟨?_, ?_, h.2.2.1 _ rfl, h.1 _ rfl (by decide)⟩
  · rw [hf]
    rfl
  · rw [hf]

/-- Claim C9: a poll tick whose queried lead has status `complete` but no
`estimate_data` returns false and leaves the state untouched, so polling
continues; storing the estimate, clearing `isGeneratingEstimate` and
advancing to the `estimate` stage happen only on a tick observing status
`complete` together with present (truthy) estimate data — whenever
`checkEstimateStatus` reports completion, the lead's status was `complete`,
its estimate data was present, and exactly those three state changes were
made. -/
theorem claim_C9 :
    (∀ (s : FlowState) (row : LeadStatusRow), row.status = "complete" →
      row.estimate_data = none →
      checkEstimateStatus s (QueryResult.row row) = (s, Except.ok false)) ∧
    (∀ (ps : PollState) (row : LeadStatusRow), ps.cleared = false →
      ps.timeElapsed + POLL_INTERVAL < ESTIMATE_TIMEOUT →
      row.status = "complete" → row.estimate_data = none →
      pollTick ps (QueryResult.row row) =
        { ps with timeElapsed := ps.timeElapsed + POLL_INTERVAL }) ∧
    (∀ (s f : FlowState) (row : LeadStatusRow),
      checkEstimateStatus s (QueryResult.row row) = (f, Except.ok true) →
      row.status = "complete" ∧ row.estimate_data ≠ none ∧
      f = { s with estimate := row.estimate_data
                   isGeneratingEstimate := false
                   stage := EstimateStage.estimate }) ∧
    (∀ (s : FlowState) (row : LeadStatusRow), row.status = "complete" →
      jsTruthyOptJson row.estimate_data = true →
      checkEstimateStatus s (QueryResult.row row) =
        ({ s with estimate := row.estimate_data
                  isGeneratingEstimate := false
                  stage := EstimateStage.estimate }, Except.ok true)) := by
  have habs : ∀ (s : FlowState) (row : LeadStatusRow), row.status = "complete" →
      row.estimate_data = none →
      checkEstimateStatus s (QueryResult.row row) = (s, Except.ok false) := by
    intro s row hst hed
    simp [checkEstimateStatus, hst, hed, jsTruthyOptJson]
  refine ⟨habs, ?_, ?_, ?_⟩
  · intro ps row hc ht hst hed
    apply pollTick_nonterminal ps (QueryResult.row row) _ hc ht
    intro f
    exact habs f row hst hed
  · intro s f row hcheck
    simp only [checkEstimateStatus] at hcheck
    by_cases h1 : row.status = "error"
    · rw [if_pos h1] at hcheck
      simp at hcheck
    · rw [if_neg h1] at hcheck
      by_cases h2 : row.status = "complete" ∧ jsTruthyOptJson row.estimate_data = true
      · rw [if_pos h2] at hcheck
        have hf : f = { s with estimate := row.estimate_data
                               isGeneratingEstimate := false
                               stage := EstimateStage.estimate } :=
          (congrArg Prod.fst hcheck).symm
        refine ⟨h2.1, ?_, hf⟩
        intro hed
        rw [hed] at h2
        simp [jsTruthyOptJson] at h2
      · rw [if_neg h2] at hcheck
        simp at hcheck
  · intro s row hst htr
    simp [checkEstimateStatus, hst, htr]

theorem claim_C9_witness :
    checkEstimateStatus initialFlowState (QueryResult.row
        { estimate_data := none, status := "complete", error_message := none }) =
      (initialFlowState, Except.ok false) ∧
    checkEstimateStatus initialFlowState (QueryResult.row
        { estimate_data := some (Json.obj [("total", Json.num 100)])
          status := "complete", error_message := none }) =
      ({ initialFlowState with
           estimate := some (Json.obj [("total", Json.num 100)])
           isGeneratingEstimate := false
           stage := EstimateStage.estimate }, Except.ok true) := by
  have h := claim_C9
  exact ⟨h.1 initialFlowState _ rfl rfl, h.2.2.2 initialFlowState _ rfl rfl⟩

/-- Claim C1: `isGeneratingEstimate` is true immediately after a successful
job-start call, and false after each terminal outcome: a poll tick observing
completion, a poll tick observing an error status, the poll timeout, a lead
submission failure (the update and insert failures of the contact path, the
insert failure of the skip path once a submission is attempted, and the
insert failure of the questions-complete path — where the flag, set only
after a successful insert, is simply never raised), and a job-invocation
failure. -/
theorem claim_C1 (cfg : EstimateConfig) :
    (∀ (s : FlowState) (leadId : String),
      (startEstimateGeneration cfg s leadId none).flow.isGeneratingEstimate = true) ∧
    (∀ (s : FlowState) (leadId : String) (e : JsError),
      (startEstimateGeneration cfg s leadId (some e)).flow.isGeneratingEstimate = false) ∧
    (∀ (ps : PollState) (row : LeadStatusRow), ps.cleared = false →
      ps.timeElapsed + POLL_INTERVAL < ESTIMATE_TIMEOUT →
      row.status = "complete" → jsTruthyOptJson row.estimate_data = true →
      (pollTick ps (QueryResult.row row)).flow.isGeneratingEstimate = false ∧
      (pollTick ps (QueryResult.row row)).cleared = true) ∧
    (∀ (ps : PollState) (row : LeadStatusRow), ps.cleared = false →
      ps.timeElapsed + POLL_INTERVAL < ESTIMATE_TIMEOUT →
      row.status = "error" →
      (pollTick ps (QueryResult.row row)).flow.isGeneratingEstimate = false ∧
      (pollTick ps (QueryResult.row row)).cleared = true) ∧
    (∀ (ps : PollState) (q : QueryResult), ps.cleared = false →
      ESTIMATE_TIMEOUT ≤ ps.timeElapsed + POLL_INTERVAL →
      (pollTick ps q).flow.isGeneratingEstimate = false ∧
      (pollTick ps q).cleared = true) ∧
    (∀ (s : FlowState) (cd : ContactFields) (e : JsError) (ir : InsertResult)
        (ie : Option JsError), optStrTruthy s.currentLeadId = true →
      (handleContactSubmit cfg s cd (some e) ir ie).flow.isGeneratingEstimate = false) ∧
    (∀ (s : FlowState) (cd : ContactFields) (ur : Option JsError) (e : JsError)
        (ie : Option JsError), optStrTruthy s.currentLeadId = false →
      (handleContactSubmit cfg s cd ur (InsertResult.failure e) ie).flow.isGeneratingEstimate
        = false) ∧
    (hasContractorId cfg = true →
      ∀ (s : FlowState) (e : JsError) (ie : Option JsError),
      (handleSkip cfg s (InsertResult.failure e) ie).flow.isGeneratingEstimate = false) ∧
    (hasContractorId cfg = true →
      ∀ (s : FlowState) (ans : AnswersState) (e : JsError) (ie : Option JsError),
      s.isGeneratingEstimate = false →
      (handleQuestionComplete cfg s ans (InsertResult.failure e) ie).flow.isGeneratingEstimate
        = false) := by
  refine ⟨?_, ?_, ?_, ?_, ?_, ?_, ?_, ?_, ?_⟩
  · intro s leadId
    rfl
  · intro s leadId e
    rfl
  · intro ps row hc ht hst htr
    unfold pollTick
    rw [hc]
    simp [if_neg (Nat.not_le.mpr ht), checkEstimateStatus, hst, htr]
  · intro ps row hc ht hst
    unfold pollTick
    rw [hc]
    simp [if_neg (Nat.not_le.mpr ht), checkEstimateStatus, hst]
  · intro ps q hc ht
    rw [pollTick_timeout ps q hc ht]
    exact ⟨rfl, rfl⟩
  · intro s cd e ir ie hheld
    cases hc : hasContractorId cfg <;>
      simp [handleContactSubmit, hheld, hc]
  · intro s cd ur e ie hfalse
    cases hc : hasContractorId cfg <;>
      simp [handleContactSubmit, hfalse, hc]
  · intro h s e ie
    simp [handleSkip, h]
  · intro h s ans e ie hflag
    simp [handleQuestionComplete, h, hflag]

theorem claim_C1_witness :
    (startEstimateGeneration { contractorId := some "c1" } initialFlowState "L1"
        none).flow.isGeneratingEstimate = true ∧
    (startEstimateGeneration { contractorId := some "c1" } initialFlowState "L1"
        (some { isErrorInstance := true, message := "invoke failed" })).flow.isGeneratingEstimate
      = false ∧
    (pollTick { flow := initialFlowState, timeElapsed := 117000, cleared := false, toasts := [] }
        QueryResult.absent).flow.isGeneratingEstimate = false ∧
    (handleSkip { contractorId := some "c1" } initialFlowState
        (InsertResult.failure { isErrorInstance := true, message := "insert failed" })
        none).flow.isGeneratingEstimate = false := by
  have h := claim_C1 { contractorId := some "c1" }
  refine ⟨h.1 initialFlowState "L1", h.2.1 initialFlowState "L1" _, ?_, ?_⟩
  · exact (h.2.2.2.2.1 _ QueryResult.absent rfl (by decide)).1
  · exact h.2.2.2.2.2.2.2.1 rfl initialFlowState _ none

/-- Counterexample to claim C4 as stated: on the skip path with
`contractorId` missing, the operation does fail fast with no network call
and no state change, but it surfaces NO user-visible notification (the
source only logs to the console and returns) — its effect log is empty. -/
theorem claim_C4_cex :
    (handleSkip { contractorId := none } initialFlowState
        (InsertResult.success (some "L1")) none).effects = [] ∧
    (handleSkip { contractorId := none } initialFlowState
        (InsertResult.success (some "L1")) none).flow = initialFlowState := by
  exact ⟨rfl, rfl⟩

/-- Claim C4 (amended): with `config.contractorId` absent, every
lead-creation operation fails fast before any network call (the effect log
holds no insert, update or invocation).  The questions-complete path
surfaces a notification and changes no state; the contact path surfaces a
notification and changes no state other than (re)setting
`isGeneratingEstimate` to false; the skip path changes no state but
surfaces no notification at all. -/
theorem claim_C4 (cfg : EstimateConfig) (h : hasContractorId cfg = false) :
    (∀ (s : FlowState) (ans : AnswersState) (ir : InsertResult) (ie : Option JsError),
      handleQuestionComplete cfg s ans ir ie =
        { flow := s, effects := [Effect.toast contractorRequiredToast] }) ∧
    (∀ (s : FlowState) (cd : ContactFields) (ur : Option JsError) (ir : InsertResult)
        (ie : Option JsError),
      handleContactSubmit cfg s cd ur ir ie =
        { flow := { s with isGeneratingEstimate := false }
          effects := [Effect.toast contactFailToast] }) ∧
    (∀ (s : FlowState) (ir : InsertResult) (ie : Option JsError),
      handleSkip cfg s ir ie = { flow := s, effects := [] }) := by
  refine ⟨?_, ?_, ?_⟩ <;> intros <;>
    simp [handleQuestionComplete, handleContactSubmit, handleSkip, h]

theorem claim_C4_witness :
    handleQuestionComplete { contractorId := none } initialFlowState []
        (InsertResult.success (some "L1")) none =
      { flow := initialFlowState, effects := [Effect.toast contractorRequiredToast] } ∧
    handleContactSubmit { contractorId := none } initialFlowState
        { fullName := "A B", email := "a@b.c", phone := "1", address := "X" }
        none (InsertResult.success (some "L1")) none =
      { flow := { initialFlowState with isGeneratingEstimate := false }
        effects := [Effect.toast contactFailToast] } := by
  have h := claim_C4 { contractorId := none } rfl
  exact ⟨h.1 initialFlowState [] _ none, h.2.1 initialFlowState _ none _ none⟩

/-- Claim C5: on a lead insert or update failure, a notification is
surfaced in every path; the questions-complete path additionally reverts
the stage to `questions`, while the contact path (both its update branch,
taken when a lead id is held, and its insert branch) and the skip path
leave the stage unchanged and set `isGeneratingEstimate` to false. -/
theorem claim_C5 (cfg : EstimateConfig) (h : hasContractorId cfg = true) :
    (∀ (s : FlowState) (ans : AnswersState) (e : JsError) (ie : Option JsError),
      (handleQuestionComplete cfg s ans (InsertResult.failure e) ie).flow.stage =
        EstimateStage.questions ∧
      Effect.toast startFailToast ∈
        (handleQuestionComplete cfg s ans (InsertResult.failure e) ie).effects) ∧
    (∀ (s : FlowState) (cd : ContactFields) (e : JsError) (ir : InsertResult)
        (ie : Option JsError), optStrTruthy s.currentLeadId = true →
      handleContactSubmit cfg s cd (some e) ir ie =
        { flow := { s with isGeneratingEstimate := false }
          effects := [Effect.updateAttempt (s.currentLeadId.getD "") cd,
                      Effect.toast contactFailToast] }) ∧
    (∀ (s : FlowState) (cd : ContactFields) (ur : Option JsError) (e : JsError)
        (ie : Option JsError), optStrTruthy s.currentLeadId = false →
      handleContactSubmit cfg s cd ur (InsertResult.failure e) ie =
        { flow := { s with isGeneratingEstimate := false }
          effects := [Effect.insertAttempt (contactLeadData cfg s cd),
                      Effect.toast contactFailToast] }) ∧
    (∀ (s : FlowState) (e : JsError) (ie : Option JsError),
      handleSkip cfg s (InsertResult.failure e) ie =
        { flow := { s with isGeneratingEstimate := false }
          effects := [Effect.insertAttempt (skipLeadData cfg s),
                      Effect.toast skipFailToast] }) := by
  refine ⟨?_, ?_, ?_, ?_⟩
  · intro s ans e ie
    simp [handleQuestionComplete, h]
  · intro s cd e ir ie hheld
    simp [handleContactSubmit, h, hheld]
  · intro s cd ur e ie hfalse
    simp [handleContactSubmit, h, hfalse]
  · intro s e ie
    simp [handleSkip, h]

theorem claim_C5_witness :
    (handleQuestionComplete { contractorId := some "c1" } initialFlowState []
        (InsertResult.failure { isErrorInstance := true, message := "insert failed" })
        none).flow.stage = EstimateStage.questions ∧
    handleSkip { contractorId := some "c1" } initialFlowState
        (InsertResult.failure { isErrorInstance := true, message := "insert failed" }) none =
      { flow := { initialFlowState with isGeneratingEstimate := false }
        effects := [Effect.insertAttempt (skipLeadData { contractorId := some "c1" }
                      initialFlowState),
                    Effect.toast skipFailToast] } := by
  have h := claim_C5 { contractorId := some "c1" } rfl
  exact ⟨(h.1 initialFlowState [] _ none).1, h.2.2.2 initialFlowState _ none⟩

/-- Claim C2: within one wizard session, whenever a (truthy) lead id is
held, `submitContact` performs no insert and attempts an update of the held
row with the submitted contact fields; it attempts an insert only when no
lead id is held; and across any sequence consisting of one
`completeQuestions` call followed by `submitContact` calls, started with no
held lead id, at most one lead is created (at most one successful insert
occurs), given that the gateway honours its contract of returning the
assigned id on a successful insert. -/
theorem claim_C2 (cfg : EstimateConfig) :
    (∀ (s : FlowState) (a : SubmitCArgs), optStrTruthy s.currentLeadId = true →
      insertAttempts (runCall cfg s (SessionCall.submitC a)).effects = 0 ∧
      (hasContractorId cfg = true →
        Effect.updateAttempt (s.currentLeadId.getD "") a.contactData ∈
          (runCall cfg s (SessionCall.submitC a)).effects)) ∧
    (∀ (s : FlowState) (a : SubmitCArgs), optStrTruthy s.currentLeadId = false →
      hasContractorId cfg = true →
      Effect.insertAttempt (contactLeadData cfg s a.contactData) ∈
        (runCall cfg s (SessionCall.submitC a)).effects) ∧
    (∀ (s : FlowState) (qa : CompleteQArgs) (subs : List SubmitCArgs),
      s.currentLeadId = none → WFInsert qa.insertRes →
      (∀ x ∈ subs, WFInsert x.insertRes) →
      leadsCreated (runSession cfg s
        (SessionCall.completeQ qa :: subs.map SessionCall.submitC)).2 ≤ 1) := by
  refine ⟨?_, ?_, ?_⟩
  · intro s a hheld
    constructor
    · exact (submitC_held cfg s a hheld).2.1
    · intro hc
      cases ur : a.updateRes <;>
        cases hg : s.isGeneratingEstimate <;>
          cases ie : a.invokeError <;>
            simp [runCall, handleContactSubmit, startEstimateGeneration, hheld, hc, ur, hg, ie]
  · intro s a hfalse hc
    cases ir : a.insertRes with
    | failure e =>
      simp [runCall, handleContactSubmit, hfalse, hc, ir]
    | success idOpt =>
      by_cases hid : optStrTruthy idOpt = true <;>
        cases ie : a.invokeError <;>
          simp [runCall, handleContactSubmit, startEstimateGeneration, hfalse, hc, ir, hid, ie]
  · intro s qa subs hnone hwfq hwfs
    have hfalse : optStrTruthy s.currentLeadId = false := by
      rw [hnone]
      rfl
    have hrun : (runSession cfg s
        (SessionCall.completeQ qa :: subs.map SessionCall.submitC)).2 =
        (runCall cfg s (SessionCall.completeQ qa)).effects ++
          (runSession cfg (runCall cfg s (SessionCall.completeQ qa)).flow
            (subs.map SessionCall.submitC)).2 := rfl
    rw [hrun, leadsCreated_append]
    have hrest := runSession_submits_bound cfg subs hwfs
      (runCall cfg s (SessionCall.completeQ qa)).flow
    rcases completeQ_unheld cfg s qa hwfq with ⟨h0, hid⟩ | ⟨h1, hheld2⟩
    · have hf2 : optStrTruthy (runCall cfg s (SessionCall.completeQ qa)).flow.currentLeadId
          = false := by
        rw [hid]
        exact hfalse
      have hr := hrest.2 hf2
      omega
    · have hr := hrest.1 hheld2
      omega

theorem claim_C2_witness :
    insertAttempts (runCall { contractorId := some "c1" }
        { initialFlowState with currentLeadId := some "L1" }
        (SessionCall.submitC
          { contactData := { fullName := "A B", email := "a@b.c", phone := "1", address := "X" }
            updateRes := none
            insertRes := InsertResult.success (some "L2")
            invokeError := none })).effects = 0 ∧
    leadsCreated (runSession { contractorId := some "c1" } initialFlowState
        [SessionCall.completeQ
          { ans := [], insertRes := InsertResult.success (some "L1"), invokeError := none },
         SessionCall.submitC
          { contactData := { fullName := "A B", email := "a@b.c", phone := "1", address := "X" }
            updateRes := none
            insertRes := InsertResult.success (some "L2")
            invokeError := none }]).2 ≤ 1 := by
  have h := claim_C2 { contractorId := some "c1" }
  constructor
  · exact (h.1 { initialFlowState with currentLeadId := some "L1" } _ rfl).1
  · exact h.2.2 initialFlowState
      { ans := [], insertRes := InsertResult.success (some "L1"), invokeError := none }
      [{ contactData := { fullName := "A B", email := "a@b.c", phone := "1", address := "X" }
         updateRes := none
         insertRes := InsertResult.success (some "L2")
         invokeError := none }]
      rfl rfl
      (by intro x hx
          rw [List.mem_singleton] at hx
          subst hx
          exact rfl)
